import Mathlib

/-!
Sign-up form controller (`src/components/auth/Signup.js`)

A shallow embedding of the two event handlers of the `Signup` component,
`handleSubmit` and `handleGoogleSignUp`, together with the React state they
read and write.

* JavaScript strings are sequences of UTF-16 code units, so `.length`,
  `!==` and `.includes` are the list operations on code units.
* A handler run is one function from the state of the render that created
  the handler (and the behaviour of the imported services) to the state after
  all its `set...` calls, together with the ordered list of calls it made on
  the outside world.
* The imported functions `createUserWithEmailAndPassword`, `updateProfile`,
  `signInWithGoogle` (services/firebase) and `newUser` (services/userService),
  and the two platform calls made inside the `try` blocks,
  `localStorage.setItem` and `navigate`, are parameters: a `Services` value
  says what each of them does when called.  Awaited promises either resolve or
  reject, the other calls either return or throw; what is thrown is an error
  object with a string `message`.  `event.preventDefault` (before the `try`)
  and `console.error` (inside the `catch`) are recorded as calls that return.
-/

namespace Signup

/-! ## JavaScript strings -/

/-- A JavaScript string value: its sequence of UTF-16 code units. -/
abbrev JSString := List Nat

/-- The UTF-16 code units of one Unicode scalar value. -/
def utf16Char (c : Char) : List Nat :=
  if c.toNat < 0x10000 then [c.toNat]
  else [0xD800 + (c.toNat - 0x10000) / 0x400, 0xDC00 + (c.toNat - 0x10000) % 0x400]

/-- The UTF-16 code units of a list of Unicode scalar values. -/
def utf16List : List Char → JSString
  | [] => []
  | c :: cs => utf16Char c ++ utf16List cs

/-- The JavaScript string denoted by a string literal of the source. -/
def utf16 (s : String) : JSString := utf16List s.toList

/-- Whether `pat` occurs in `s` at position 0. -/
def startsWith : JSString → JSString → Bool
  | _, [] => true
  | [], _ :: _ => false
  | c :: cs, p :: ps => c == p && startsWith cs ps

/-- The method `String.prototype.includes`: whether `pat` occurs in `s` at some position. -/
def includes (s pat : JSString) : Bool :=
  match s with
  | [] => startsWith [] pat
  | c :: cs => startsWith (c :: cs) pat || includes cs pat

/-! ## Component state -/

/-- The eight `useState` cells of the component (lines 44-51). -/
structure State where
  name : JSString
  email : JSString
  password : JSString
  confirmPassword : JSString
  error : JSString
  emailError : JSString
  passwordError : JSString
  isSubmitted : Bool
deriving DecidableEq, Repr

/-- The state of a freshly mounted component: every `useState` initial value. -/
def init : State :=
  { name := [], email := [], password := [], confirmPassword := [],
    error := [], emailError := [], passwordError := [], isSubmitted := false }

/-! ## The outside world -/

/-- An error object caught by a handler; the handlers read only its `message`. -/
structure JSError where
  message : JSString
deriving DecidableEq, Repr

/-- The `user` object of a credential.  `password` is the property that
`handleSubmit` assigns on line 80; it is absent on what the provider returns. -/
structure User where
  uid : Nat
  password : Option JSString
deriving DecidableEq, Repr

/-- What `createUserWithEmailAndPassword` and `signInWithGoogle` resolve to. -/
structure UserCredential where
  user : User
deriving DecidableEq, Repr

/-- What the un-awaited call `newUser(cred)` does: it throws synchronously, or it
returns (a promise or any value); `later` is the rejection of the returned
promise, if any, which no code of the handler observes. -/
inductive NewUserOutcome where
  | threw (e : JSError)
  | returned (later : Option JSError)
deriving DecidableEq, Repr

/-- Behaviour of everything the `try` blocks of the two handlers call: the
imported service functions, `localStorage.setItem` and `navigate`. -/
structure Services where
  createUserWithEmailAndPassword : JSString → JSString → Except JSError UserCredential
  updateProfile : User → JSString → Except JSError Unit
  signInWithGoogle : Except JSError UserCredential
  newUser : UserCredential → NewUserOutcome
  localStorageSetItem : JSString → Bool → Except JSError Unit
  navigate : JSString → Except JSError Unit

/-- A call made by a handler on something outside the component. -/
inductive Call where
  | preventDefault
  | createUserWithEmailAndPassword (email password : JSString)
  | updateProfile (user : User) (displayName : JSString)
  | newUser (cred : UserCredential)
  | signInWithGoogle
  | consoleError (label message : JSString)
  | localStorageSetItem (key : JSString) (value : Bool)
  | navigate (path : JSString)
deriving DecidableEq, Repr

/-- The result of running a handler: the component state after its `set...`
calls, and the calls it made, in order. -/
structure Outcome where
  state : State
  calls : List Call
deriving DecidableEq, Repr

/-! ## `handleSubmit` (lines 54-96) -/

/-- The `catch` block of `handleSubmit` (lines 84-95), entered with error `e`,
state `s` and the calls made so far. -/
def handleSubmitCatch (e : JSError) (s : State) (calls : List Call) : Outcome :=
  let calls := calls ++ [Call.consoleError (utf16 "Error signing up:") e.message]
  if includes e.message (utf16 "(auth/invalid-email)") then
    { state := { s with emailError := utf16 "Invalid Email Address" }, calls := calls }
  else if includes e.message (utf16 "(auth/email-already-in-use)") then
    { state := { s with emailError := utf16 "Email is already in use" }, calls := calls }
  else if includes e.message (utf16 "(auth/weak-password)") then
    { state := { s with passwordError := utf16 "Password must be at least 6 characters long" },
      calls := calls }
  else
    { state := { s with error := utf16 "Something went wrong, contact the developer" },
      calls := calls }

/-- The handler `handleSubmit` (lines 54-96). -/
def handleSubmit (env : Services) (s : State) : Outcome :=
  let calls := [Call.preventDefault]
  let st := { s with isSubmitted := true, error := [], emailError := [], passwordError := [] }
  if s.password.length < 6 then
    { state := { st with passwordError := utf16 "Password must be at least 6 characters long" },
      calls := calls }
  else if s.password ≠ s.confirmPassword then
    { state := { st with passwordError := utf16 "Passwords do not match" }, calls := calls }
  else
    let calls := calls ++ [Call.createUserWithEmailAndPassword s.email s.password]
    match env.createUserWithEmailAndPassword s.email s.password with
    | .error e => handleSubmitCatch e st calls
    | .ok cred =>
      let calls := calls ++ [Call.updateProfile cred.user s.name]
      match env.updateProfile cred.user s.name with
      | .error e => handleSubmitCatch e st calls
      | .ok _ =>
        let cred := { cred with user := { cred.user with password := some s.password } }
        let calls := calls ++ [Call.newUser cred]
        match env.newUser cred with
        | .threw e => handleSubmitCatch e st calls
        | .returned _ =>
          let calls := calls ++ [Call.localStorageSetItem (utf16 "loggedIn") true]
          match env.localStorageSetItem (utf16 "loggedIn") true with
          | .error e => handleSubmitCatch e st calls
          | .ok _ =>
            let calls := calls ++ [Call.navigate (utf16 "/dashboard")]
            match env.navigate (utf16 "/dashboard") with
            | .error e => handleSubmitCatch e st calls
            | .ok _ => { state := st, calls := calls }

/-! ## `handleGoogleSignUp` (lines 98-112) -/

/-- The `catch` block of `handleGoogleSignUp` (lines 108-111). -/
def handleGoogleSignUpCatch (e : JSError) (s : State) (calls : List Call) : Outcome :=
  { state := { s with
      error := utf16 "Something went wrong with Google Sign-Up, contact the developer" },
    calls := calls ++ [Call.consoleError (utf16 "Error signing up with Google:") e.message] }

/-- The handler `handleGoogleSignUp` (lines 98-112). -/
def handleGoogleSignUp (env : Services) (s : State) : Outcome :=
  let calls := [Call.signInWithGoogle]
  match env.signInWithGoogle with
  | .error e => handleGoogleSignUpCatch e s calls
  | .ok result =>
    let user := result.user
    let calls := calls ++ [Call.updateProfile user s.name]
    match env.updateProfile user s.name with
    | .error e => handleGoogleSignUpCatch e s calls
    | .ok _ =>
      let calls := calls ++ [Call.newUser result]
      match env.newUser result with
      | .threw e => handleGoogleSignUpCatch e s calls
      | .returned _ =>
        let calls := calls ++ [Call.localStorageSetItem (utf16 "loggedIn") true]
        match env.localStorageSetItem (utf16 "loggedIn") true with
        | .error e => handleGoogleSignUpCatch e s calls
        | .ok _ =>
          let calls := calls ++ [Call.navigate (utf16 "/dashboard")]
          match env.navigate (utf16 "/dashboard") with
          | .error e => handleGoogleSignUpCatch e s calls
          | .ok _ => { state := s, calls := calls }

/-! ## The session: events of the form -/

/-- The user actions wired in the JSX (lines 114-230): typing in one of the
four fields, submitting the form, and clicking the Google button. -/
inductive Event where
  | setName (v : JSString)
  | setEmail (v : JSString)
  | setPassword (v : JSString)
  | setConfirmPassword (v : JSString)
  | submit (env : Services)
  | googleSignUp (env : Services)

/-- Whether the event is a submission of the form (`onSubmit`, line 135). -/
def Event.isSubmit : Event → Bool
  | .submit _ => true
  | _ => false

/-- One step of the session. -/
def step (s : State) : Event → State
  | .setName v => { s with name := v }
  | .setEmail v => { s with email := v }
  | .setPassword v => { s with password := v }
  | .setConfirmPassword v => { s with confirmPassword := v }
  | .submit env => (handleSubmit env s).state
  | .googleSignUp env => (handleGoogleSignUp env s).state

/-- A run of the session from state `s`. -/
def run (s : State) (evs : List Event) : State := evs.foldl step s

/-! ## Sample inputs -/

/-- A form state with the given field contents and no error shown. -/
def sampleForm (name email password confirmPassword : String) : State :=
  { init with name := utf16 name, email := utf16 email, password := utf16 password,
              confirmPassword := utf16 confirmPassword }

/-- A form state with the given passwords in which all three error texts are
already shown from an earlier attempt. -/
def sampleDirtyForm (password confirmPassword : String) : State :=
  { name := utf16 "Ann", email := utf16 "ann@example.org", password := utf16 password,
    confirmPassword := utf16 confirmPassword,
    error := utf16 "Something went wrong, contact the developer",
    emailError := utf16 "Email is already in use",
    passwordError := utf16 "Passwords do not match", isSubmitted := true }

/-- A form state that passes both local checks. -/
def sampleValidForm : State := sampleForm "Ann" "ann@example.org" "secret1" "secret1"

/-- The credential that the sample services resolve to. -/
def sampleCred : UserCredential := { user := { uid := 7, password := none } }

/-- Services in which every call succeeds. -/
def servicesOk : Services :=
  { createUserWithEmailAndPassword := fun _ _ => .ok sampleCred,
    updateProfile := fun _ _ => .ok (),
    signInWithGoogle := .ok sampleCred,
    newUser := fun _ => .returned none,
    localStorageSetItem := fun _ _ => .ok (),
    navigate := fun _ => .ok () }

/-- Services in which account creation and federated sign-in reject with message `m`. -/
def servicesAuthFails (m : String) : Services :=
  { servicesOk with
    createUserWithEmailAndPassword := fun _ _ => .error { message := utf16 m },
    signInWithGoogle := .error { message := utf16 m } }

/-- Services in which account creation succeeds and `updateProfile` rejects with message `m`. -/
def servicesProfileFails (m : String) : Services :=
  { servicesOk with updateProfile := fun _ _ => .error { message := utf16 m } }

/-- Services in which everything awaited succeeds and the promise returned by
`newUser` later rejects with message `m`. -/
def servicesPersistRejects (m : String) : Services :=
  { servicesOk with newUser := fun _ => .returned (some { message := utf16 m }) }

/-- Services in which everything succeeds up to `localStorage.setItem`, which
throws with message `m` (storage full or blocked). -/
def servicesStorageFails (m : String) : Services :=
  { servicesOk with localStorageSetItem := fun _ _ => .error { message := utf16 m } }

/-! ## Facts about `includes` -/

theorem startsWith_iff (s pat : JSString) : startsWith s pat = true ↔ pat <+: s := by
  induction pat generalizing s with
  | nil => simp [startsWith]
  | cons p ps ih =>
    cases s with
    | nil => simp [startsWith]
    | cons c cs =>
      simp only [startsWith, Bool.and_eq_true, beq_iff_eq, ih, List.cons_prefix_cons]
      constructor
      · rintro ⟨h, h2⟩; exact ⟨h.symm, h2⟩
      · rintro ⟨h, h2⟩; exact ⟨h.symm, h2⟩

theorem includes_iff (s pat : JSString) : includes s pat = true ↔ pat <:+: s := by
  induction s with
  | nil =>
    simp only [includes, startsWith_iff, List.prefix_nil, List.infix_nil]
  | cons c cs ih =>
    simp only [includes, Bool.or_eq_true, startsWith_iff, ih, List.infix_cons_iff]

/-- A message that does not contain a part of a pattern does not contain the pattern. -/
theorem not_includes_of_part_missing (s part pat : JSString) (hp : includes pat part = true)
    (h : includes s part = false) : includes s pat = false := by
  cases hs : includes s pat with
  | false => rfl
  | true =>
    have h1 := (includes_iff s pat).1 hs
    have h2 := (includes_iff pat part).1 hp
    have h3 := (includes_iff s part).2 (h2.trans h1)
    rw [h] at h3
    exact absurd h3 (by decide)

/-! ## Facts about the handlers, branch by branch -/

/-- The outcome of `handleSubmit` when the length check of line 61 fails. -/
theorem handleSubmit_short (env : Services) (s : State) (h : s.password.length < 6) :
    handleSubmit env s =
      { state := { s with isSubmitted := true, error := [], emailError := [],
                          passwordError := utf16 "Password must be at least 6 characters long" },
        calls := [Call.preventDefault] } := by
  simp [handleSubmit, h]

/-- The outcome of `handleSubmit` when the comparison of line 66 fails. -/
theorem handleSubmit_mismatch (env : Services) (s : State) (h : 6 ≤ s.password.length)
    (hne : s.password ≠ s.confirmPassword) :
    handleSubmit env s =
      { state := { s with isSubmitted := true, error := [], emailError := [],
                          passwordError := utf16 "Passwords do not match" },
        calls := [Call.preventDefault] } := by
  simp [handleSubmit, Nat.not_lt.2 h, hne]

/-- A rejected create-account call enters the `catch` block after two calls. -/
theorem handleSubmit_create_error (env : Services) (s : State) (e : JSError)
    (h : 6 ≤ s.password.length) (heq : s.password = s.confirmPassword)
    (hc : env.createUserWithEmailAndPassword s.email s.password = .error e) :
    handleSubmit env s =
      handleSubmitCatch e
        { s with isSubmitted := true, error := [], emailError := [], passwordError := [] }
        [Call.preventDefault, Call.createUserWithEmailAndPassword s.email s.password] := by
  simp only [handleSubmit, if_neg (Nat.not_lt.2 h), if_neg (not_not.2 heq), hc,
    List.cons_append, List.nil_append]

/-- A rejected `updateProfile` enters the same `catch` block after three calls. -/
theorem handleSubmit_update_error (env : Services) (s : State) (cred : UserCredential)
    (e : JSError) (h : 6 ≤ s.password.length) (heq : s.password = s.confirmPassword)
    (hc : env.createUserWithEmailAndPassword s.email s.password = .ok cred)
    (hu : env.updateProfile cred.user s.name = .error e) :
    handleSubmit env s =
      handleSubmitCatch e
        { s with isSubmitted := true, error := [], emailError := [], passwordError := [] }
        [Call.preventDefault, Call.createUserWithEmailAndPassword s.email s.password,
         Call.updateProfile cred.user s.name] := by
  simp only [handleSubmit, if_neg (Nat.not_lt.2 h), if_neg (not_not.2 heq), hc, hu,
    List.cons_append, List.nil_append]

/-- The outcome of `handleSubmit` when the `try` block runs to its end. -/
theorem handleSubmit_success (env : Services) (s : State) (cred : UserCredential)
    (later : Option JSError) (h : 6 ≤ s.password.length) (heq : s.password = s.confirmPassword)
    (hc : env.createUserWithEmailAndPassword s.email s.password = .ok cred)
    (hu : env.updateProfile cred.user s.name = .ok ())
    (hn : env.newUser { user := { uid := cred.user.uid, password := some s.password } }
            = .returned later)
    (hs : env.localStorageSetItem (utf16 "loggedIn") true = .ok ())
    (hv : env.navigate (utf16 "/dashboard") = .ok ()) :
    handleSubmit env s =
      { state := { s with isSubmitted := true, error := [], emailError := [],
                          passwordError := [] },
        calls := [Call.preventDefault,
                  Call.createUserWithEmailAndPassword s.email s.password,
                  Call.updateProfile cred.user s.name,
                  Call.newUser { user := { uid := cred.user.uid, password := some s.password } },
                  Call.localStorageSetItem (utf16 "loggedIn") true,
                  Call.navigate (utf16 "/dashboard")] } := by
  simp only [handleSubmit, if_neg (Nat.not_lt.2 h), if_neg (not_not.2 heq), hc, hu, hn, hs, hv,
    List.cons_append, List.nil_append]

/-- A throwing `localStorage.setItem` enters the same `catch` block after five calls. -/
theorem handleSubmit_storage_error (env : Services) (s : State) (cred : UserCredential)
    (later : Option JSError) (e : JSError) (h : 6 ≤ s.password.length)
    (heq : s.password = s.confirmPassword)
    (hc : env.createUserWithEmailAndPassword s.email s.password = .ok cred)
    (hu : env.updateProfile cred.user s.name = .ok ())
    (hn : env.newUser { user := { uid := cred.user.uid, password := some s.password } }
            = .returned later)
    (hs : env.localStorageSetItem (utf16 "loggedIn") true = .error e) :
    handleSubmit env s =
      handleSubmitCatch e
        { s with isSubmitted := true, error := [], emailError := [], passwordError := [] }
        [Call.preventDefault, Call.createUserWithEmailAndPassword s.email s.password,
         Call.updateProfile cred.user s.name,
         Call.newUser { user := { uid := cred.user.uid, password := some s.password } },
         Call.localStorageSetItem (utf16 "loggedIn") true] := by
  simp only [handleSubmit, if_neg (Nat.not_lt.2 h), if_neg (not_not.2 heq), hc, hu, hn, hs,
    List.cons_append, List.nil_append]

/-- The three error texts left by the `catch` block of `handleSubmit` when it is
entered with all three empty: exactly one of them is written. -/
theorem handleSubmitCatch_error_texts (e : JSError) (s : State) (calls : List Call)
    (h1 : s.error = []) (h2 : s.emailError = []) (h3 : s.passwordError = []) :
    ((handleSubmitCatch e s calls).state.error =
        utf16 "Something went wrong, contact the developer" ∧
      (handleSubmitCatch e s calls).state.emailError = [] ∧
      (handleSubmitCatch e s calls).state.passwordError = []) ∨
    ((handleSubmitCatch e s calls).state.error = [] ∧
      ((handleSubmitCatch e s calls).state.emailError = utf16 "Invalid Email Address" ∨
       (handleSubmitCatch e s calls).state.emailError = utf16 "Email is already in use") ∧
      (handleSubmitCatch e s calls).state.passwordError = []) ∨
    ((handleSubmitCatch e s calls).state.error = [] ∧
      (handleSubmitCatch e s calls).state.emailError = [] ∧
      (handleSubmitCatch e s calls).state.passwordError =
        utf16 "Password must be at least 6 characters long") := by
  unfold handleSubmitCatch
  simp only
  split_ifs
  · exact Or.inr (Or.inl ⟨h1, Or.inl rfl, h3⟩)
  · exact Or.inr (Or.inl ⟨h1, Or.inr rfl, h3⟩)
  · exact Or.inr (Or.inr ⟨h1, h2, rfl⟩)
  · exact Or.inl ⟨rfl, h2, h3⟩

/-- The three error texts after `handleSubmit`, whatever they were before: all
empty, or exactly one of them holding a message of this run. -/
theorem handleSubmit_error_texts (env : Services) (s : State) :
    ((handleSubmit env s).state.error = [] ∧
      (handleSubmit env s).state.emailError = [] ∧
      (handleSubmit env s).state.passwordError = []) ∨
    ((handleSubmit env s).state.error = utf16 "Something went wrong, contact the developer" ∧
      (handleSubmit env s).state.emailError = [] ∧
      (handleSubmit env s).state.passwordError = []) ∨
    ((handleSubmit env s).state.error = [] ∧
      ((handleSubmit env s).state.emailError = utf16 "Invalid Email Address" ∨
       (handleSubmit env s).state.emailError = utf16 "Email is already in use") ∧
      (handleSubmit env s).state.passwordError = []) ∨
    ((handleSubmit env s).state.error = [] ∧
      (handleSubmit env s).state.emailError = [] ∧
      ((handleSubmit env s).state.passwordError =
          utf16 "Password must be at least 6 characters long" ∨
       (handleSubmit env s).state.passwordError = utf16 "Passwords do not match")) := by
  have hcatch : ∀ (e : JSError) (calls : List Call) (o : Outcome),
      o = handleSubmitCatch e
        { s with isSubmitted := true, error := [], emailError := [], passwordError := [] }
        calls →
      (o.state.error = [] ∧ o.state.emailError = [] ∧ o.state.passwordError = []) ∨
      (o.state.error = utf16 "Something went wrong, contact the developer" ∧
        o.state.emailError = [] ∧ o.state.passwordError = []) ∨
      (o.state.error = [] ∧
        (o.state.emailError = utf16 "Invalid Email Address" ∨
         o.state.emailError = utf16 "Email is already in use") ∧
        o.state.passwordError = []) ∨
      (o.state.error = [] ∧ o.state.emailError = [] ∧
        (o.state.passwordError = utf16 "Password must be at least 6 characters long" ∨
         o.state.passwordError = utf16 "Passwords do not match")) := by
    intro e calls o ho
    subst ho
    rcases handleSubmitCatch_error_texts e
      { s with isSubmitted := true, error := [], emailError := [], passwordError := [] }
      calls rfl rfl rfl with h | h | h
    · exact Or.inr (Or.inl h)
    · exact Or.inr (Or.inr (Or.inl h))
    · exact Or.inr (Or.inr (Or.inr ⟨h.1, h.2.1, Or.inl h.2.2⟩))
  unfold handleSubmit
  simp only
  split
  · exact Or.inr (Or.inr (Or.inr ⟨rfl, rfl, Or.inl rfl⟩))
  · split
    · exact Or.inr (Or.inr (Or.inr ⟨rfl, rfl, Or.inr rfl⟩))
    · repeat (first | exact hcatch _ _ _ rfl | exact Or.inl ⟨rfl, rfl, rfl⟩ | split)

/-- The `catch` block of `handleSubmit` on a message with none of the three codes. -/
theorem handleSubmitCatch_unclassified (e : JSError) (s : State) (calls : List Call)
    (h1 : includes e.message (utf16 "(auth/invalid-email)") = false)
    (h2 : includes e.message (utf16 "(auth/email-already-in-use)") = false)
    (h3 : includes e.message (utf16 "(auth/weak-password)") = false) :
    handleSubmitCatch e s calls =
      { state := { s with error := utf16 "Something went wrong, contact the developer" },
        calls := calls ++ [Call.consoleError (utf16 "Error signing up:") e.message] } := by
  simp [handleSubmitCatch, h1, h2, h3]

/-- The outcome of `handleSubmit` does not read the error texts or the flag of the
state it starts from. -/
theorem handleSubmit_congr (env : Services) (s t : State) (hn : s.name = t.name)
    (he : s.email = t.email) (hp : s.password = t.password)
    (hc : s.confirmPassword = t.confirmPassword) : handleSubmit env s = handleSubmit env t := by
  simp only [handleSubmit, hn, he, hp, hc]

/-- The handler `handleSubmit` does not write the four input fields. -/
theorem handleSubmit_fields (env : Services) (s : State) :
    (handleSubmit env s).state.name = s.name ∧
    (handleSubmit env s).state.email = s.email ∧
    (handleSubmit env s).state.password = s.password ∧
    (handleSubmit env s).state.confirmPassword = s.confirmPassword := by
  unfold handleSubmit handleSubmitCatch
  simp only
  repeat (first | exact ⟨rfl, rfl, rfl, rfl⟩ | split)

/-- Every branch of the `catch` block of `handleSubmit` logs once and calls nothing else. -/
theorem handleSubmitCatch_calls (e : JSError) (s : State) (calls : List Call) :
    (handleSubmitCatch e s calls).calls =
      calls ++ [Call.consoleError (utf16 "Error signing up:") e.message] := by
  unfold handleSubmitCatch
  split_ifs <;> rfl

theorem handleSubmitCatch_invalid_email (e : JSError) (s : State) (calls : List Call)
    (h1 : includes e.message (utf16 "(auth/invalid-email)") = true) :
    (handleSubmitCatch e s calls).state = { s with emailError := utf16 "Invalid Email Address" } := by
  simp [handleSubmitCatch, h1]

theorem handleSubmitCatch_email_in_use (e : JSError) (s : State) (calls : List Call)
    (h1 : includes e.message (utf16 "(auth/invalid-email)") = false)
    (h2 : includes e.message (utf16 "(auth/email-already-in-use)") = true) :
    (handleSubmitCatch e s calls).state =
      { s with emailError := utf16 "Email is already in use" } := by
  simp [handleSubmitCatch, h1, h2]

/-- The state left by `handleGoogleSignUp` whenever its `catch` block runs. -/
theorem handleGoogleSignUp_failed (env : Services) (s : State) (e : JSError)
    (h : env.signInWithGoogle = .error e ∨
         (∃ r, env.signInWithGoogle = .ok r ∧ env.updateProfile r.user s.name = .error e) ∨
         (∃ r, env.signInWithGoogle = .ok r ∧ env.updateProfile r.user s.name = .ok () ∧
               env.newUser r = .threw e) ∨
         (∃ r later, env.signInWithGoogle = .ok r ∧ env.updateProfile r.user s.name = .ok () ∧
               env.newUser r = .returned later ∧
               env.localStorageSetItem (utf16 "loggedIn") true = .error e) ∨
         (∃ r later, env.signInWithGoogle = .ok r ∧ env.updateProfile r.user s.name = .ok () ∧
               env.newUser r = .returned later ∧
               env.localStorageSetItem (utf16 "loggedIn") true = .ok () ∧
               env.navigate (utf16 "/dashboard") = .error e)) :
    (handleGoogleSignUp env s).state =
      { s with error :=
          utf16 "Something went wrong with Google Sign-Up, contact the developer" } := by
  rcases h with h | ⟨r, h, hu⟩ | ⟨r, h, hu, hn⟩ | ⟨r, later, h, hu, hn, hs⟩ |
    ⟨r, later, h, hu, hn, hs, hv⟩
  · simp only [handleGoogleSignUp, h, handleGoogleSignUpCatch]
  · simp only [handleGoogleSignUp, h, hu, handleGoogleSignUpCatch]
  · simp only [handleGoogleSignUp, h, hu, hn, handleGoogleSignUpCatch]
  · simp only [handleGoogleSignUp, h, hu, hn, hs, handleGoogleSignUpCatch]
  · simp only [handleGoogleSignUp, h, hu, hn, hs, hv, handleGoogleSignUpCatch]

/-- Both handlers keep `isSubmitted` once it is set; only `handleSubmit` sets it. -/
theorem handleSubmit_isSubmitted (env : Services) (s : State) :
    (handleSubmit env s).state.isSubmitted = true := by
  unfold handleSubmit handleSubmitCatch
  simp only
  repeat (first | rfl | split)

theorem handleGoogleSignUp_isSubmitted (env : Services) (s : State) :
    (handleGoogleSignUp env s).state.isSubmitted = s.isSubmitted := by
  unfold handleGoogleSignUp handleGoogleSignUpCatch
  simp only
  repeat (first | rfl | split)

theorem step_isSubmitted (s : State) (e : Event) :
    (step s e).isSubmitted = (s.isSubmitted || e.isSubmit) := by
  cases e <;>
    simp [step, Event.isSubmit, handleSubmit_isSubmitted, handleGoogleSignUp_isSubmitted]

theorem run_isSubmitted (s : State) (evs : List Event) :
    (run s evs).isSubmitted = (s.isSubmitted || evs.any Event.isSubmit) := by
  induction evs generalizing s with
  | nil => simp [run]
  | cons e evs ih =>
    have h : run s (e :: evs) = run (step s e) evs := rfl
    rw [h, ih, step_isSubmitted, List.any_cons, Bool.or_assoc]

/-! ## Local validation -/

/-- C1: whenever the password has fewer than 6 code units, whatever the other
fields and the error texts shown before, `handleSubmit` ends with the password
error "Password must be at least 6 characters long", with the email error and the
general error empty, and its only call is `event.preventDefault`, so
`createUserWithEmailAndPassword` is never called.  Nothing is assumed about
`confirmPassword`: the length message is the one shown also when the two
passwords differ. -/
theorem handleSubmit_rejects_short_password (env : Services) (s : State)
    (h : s.password.length < 6) :
    (handleSubmit env s).state.passwordError =
        utf16 "Password must be at least 6 characters long" ∧
    (handleSubmit env s).state.emailError = [] ∧
    (handleSubmit env s).state.error = [] ∧
    (handleSubmit env s).calls = [Call.preventDefault] ∧
    ∀ email password,
      Call.createUserWithEmailAndPassword email password ∉ (handleSubmit env s).calls := by
  rw [handleSubmit_short env s h]
  simp

/-- C1 at a short password that also differs from its confirmation, with all
three error texts shown beforehand. -/
theorem handleSubmit_rejects_short_password_witness :
    (sampleDirtyForm "abc" "xyz").password.length < 6 ∧
    (sampleDirtyForm "abc" "xyz").password ≠ (sampleDirtyForm "abc" "xyz").confirmPassword ∧
    ((handleSubmit servicesOk (sampleDirtyForm "abc" "xyz")).state.passwordError =
        utf16 "Password must be at least 6 characters long" ∧
     (handleSubmit servicesOk (sampleDirtyForm "abc" "xyz")).state.emailError = [] ∧
     (handleSubmit servicesOk (sampleDirtyForm "abc" "xyz")).state.error = [] ∧
     (handleSubmit servicesOk (sampleDirtyForm "abc" "xyz")).calls = [Call.preventDefault] ∧
     ∀ email password,
       Call.createUserWithEmailAndPassword email password ∉
         (handleSubmit servicesOk (sampleDirtyForm "abc" "xyz")).calls) :=
  ⟨by decide, by decide,
    handleSubmit_rejects_short_password servicesOk (sampleDirtyForm "abc" "xyz") (by decide)⟩

/-- C2: whenever the password has at least 6 code units and differs from
`confirmPassword`, `handleSubmit` ends with the password error "Passwords do not
match" and its only call is `event.preventDefault`: it makes no create-account
call, no update-profile call, no `newUser` request, no storage write and no
navigation. -/
theorem handleSubmit_rejects_mismatch (env : Services) (s : State)
    (h : 6 ≤ s.password.length) (hne : s.password ≠ s.confirmPassword) :
    (handleSubmit env s).state.passwordError = utf16 "Passwords do not match" ∧
    (handleSubmit env s).calls = [Call.preventDefault] ∧
    (∀ email password,
      Call.createUserWithEmailAndPassword email password ∉ (handleSubmit env s).calls) ∧
    (∀ user displayName, Call.updateProfile user displayName ∉ (handleSubmit env s).calls) ∧
    (∀ cred, Call.newUser cred ∉ (handleSubmit env s).calls) ∧
    (∀ key value, Call.localStorageSetItem key value ∉ (handleSubmit env s).calls) ∧
    (∀ path, Call.navigate path ∉ (handleSubmit env s).calls) := by
  rw [handleSubmit_mismatch env s h hne]
  simp

/-- C2 at the passwords "secret1" and "secret2". -/
theorem handleSubmit_rejects_mismatch_witness :
    6 ≤ (sampleDirtyForm "secret1" "secret2").password.length ∧
    (sampleDirtyForm "secret1" "secret2").password ≠
      (sampleDirtyForm "secret1" "secret2").confirmPassword ∧
    (handleSubmit servicesOk (sampleDirtyForm "secret1" "secret2")).state.passwordError =
      utf16 "Passwords do not match" ∧
    (handleSubmit servicesOk (sampleDirtyForm "secret1" "secret2")).calls =
      [Call.preventDefault] :=
  ⟨by decide, by decide,
    (handleSubmit_rejects_mismatch servicesOk (sampleDirtyForm "secret1" "secret2")
      (by decide) (by decide)).1,
    (handleSubmit_rejects_mismatch servicesOk (sampleDirtyForm "secret1" "secret2")
      (by decide) (by decide)).2.1⟩

/-! ## The success path -/

/-- C3 as stated fails: with a locally valid form and a create-account call that
succeeds, a rejected `updateProfile` is caught, so `newUser`, the storage write
and the navigation do not happen and the general error is set; likewise a
throwing `localStorage.setItem` is caught, so the navigation does not happen and
the general error is set. -/
theorem handleSubmit_success_counterexample :
    6 ≤ sampleValidForm.password.length ∧
    sampleValidForm.password = sampleValidForm.confirmPassword ∧
    (servicesProfileFails "Network error").createUserWithEmailAndPassword
        sampleValidForm.email sampleValidForm.password = .ok sampleCred ∧
    (handleSubmit (servicesProfileFails "Network error") sampleValidForm).calls =
      [Call.preventDefault,
       Call.createUserWithEmailAndPassword (utf16 "ann@example.org") (utf16 "secret1"),
       Call.updateProfile sampleCred.user (utf16 "Ann"),
       Call.consoleError (utf16 "Error signing up:") (utf16 "Network error")] ∧
    Call.navigate (utf16 "/dashboard") ∉
      (handleSubmit (servicesProfileFails "Network error") sampleValidForm).calls ∧
    (handleSubmit (servicesProfileFails "Network error") sampleValidForm).state.error ≠ [] ∧
    (servicesStorageFails "QuotaExceededError").createUserWithEmailAndPassword
        sampleValidForm.email sampleValidForm.password = .ok sampleCred ∧
    Call.navigate (utf16 "/dashboard") ∉
      (handleSubmit (servicesStorageFails "QuotaExceededError") sampleValidForm).calls ∧
    (handleSubmit (servicesStorageFails "QuotaExceededError") sampleValidForm).state.error =
      utf16 "Something went wrong, contact the developer" := by
  refine ⟨by decide, by decide, rfl, by decide, by decide, by decide, rfl, by decide,
    by decide⟩

/-- C3, amended: for a locally valid form, when the create-account call succeeds
and every later call of the `try` block completes as well (the awaited
`updateProfile` resolves, and `newUser`, `localStorage.setItem` and `navigate`
return without throwing), `handleSubmit` makes exactly these calls in this
order: `preventDefault`, create-account with the entered email and password,
`updateProfile` on the returned user with the entered name, `newUser` on the
credential carrying the password, the storage write of "loggedIn", and the
navigation to "/dashboard"; and it leaves all three error texts empty. -/
theorem handleSubmit_success_sequence (env : Services) (s : State) (cred : UserCredential)
    (later : Option JSError) (h : 6 ≤ s.password.length)
    (heq : s.password = s.confirmPassword)
    (hc : env.createUserWithEmailAndPassword s.email s.password = .ok cred)
    (hu : env.updateProfile cred.user s.name = .ok ())
    (hn : env.newUser { user := { uid := cred.user.uid, password := some s.password } }
            = .returned later)
    (hs : env.localStorageSetItem (utf16 "loggedIn") true = .ok ())
    (hv : env.navigate (utf16 "/dashboard") = .ok ()) :
    (handleSubmit env s).calls =
      [Call.preventDefault,
       Call.createUserWithEmailAndPassword s.email s.password,
       Call.updateProfile cred.user s.name,
       Call.newUser { user := { uid := cred.user.uid, password := some s.password } },
       Call.localStorageSetItem (utf16 "loggedIn") true,
       Call.navigate (utf16 "/dashboard")] ∧
    (handleSubmit env s).state.error = [] ∧
    (handleSubmit env s).state.emailError = [] ∧
    (handleSubmit env s).state.passwordError = [] := by
  rw [handleSubmit_success env s cred later h heq hc hu hn hs hv]
  exact ⟨rfl, rfl, rfl, rfl⟩

/-- C3, amended, at the sample form with services that all succeed. -/
theorem handleSubmit_success_sequence_witness :
    (handleSubmit servicesOk sampleValidForm).calls =
      [Call.preventDefault,
       Call.createUserWithEmailAndPassword sampleValidForm.email sampleValidForm.password,
       Call.updateProfile sampleCred.user sampleValidForm.name,
       Call.newUser { user := { uid := sampleCred.user.uid,
                                password := some sampleValidForm.password } },
       Call.localStorageSetItem (utf16 "loggedIn") true,
       Call.navigate (utf16 "/dashboard")] ∧
    (handleSubmit servicesOk sampleValidForm).state.error = [] ∧
    (handleSubmit servicesOk sampleValidForm).state.emailError = [] ∧
    (handleSubmit servicesOk sampleValidForm).state.passwordError = [] :=
  handleSubmit_success_sequence servicesOk sampleValidForm sampleCred none
    (by decide) (by decide) rfl rfl rfl rfl rfl

/-! ## Classification of provider failures -/

/-- C4 as stated fails, in two ways.  The handler searches for the code between
parentheses, so the message "auth/email-already-in-use" sets no email error; and
the invalid-email test runs first, so a message with both codes gives "Invalid
Email Address". -/
theorem handleSubmit_email_in_use_counterexample :
    (6 ≤ sampleValidForm.password.length ∧
     sampleValidForm.password = sampleValidForm.confirmPassword) ∧
    (includes (utf16 "auth/email-already-in-use") (utf16 "auth/email-already-in-use") = true ∧
     (handleSubmit (servicesAuthFails "auth/email-already-in-use")
        sampleValidForm).state.emailError = [] ∧
     (handleSubmit (servicesAuthFails "auth/email-already-in-use")
        sampleValidForm).state.emailError ≠ utf16 "Email is already in use") ∧
    (includes (utf16 "Error (auth/invalid-email), (auth/email-already-in-use).")
        (utf16 "auth/email-already-in-use") = true ∧
     (handleSubmit (servicesAuthFails "Error (auth/invalid-email), (auth/email-already-in-use).")
        sampleValidForm).state.emailError = utf16 "Invalid Email Address" ∧
     (handleSubmit (servicesAuthFails "Error (auth/invalid-email), (auth/email-already-in-use).")
        sampleValidForm).state.emailError ≠ utf16 "Email is already in use") := by
  refine ⟨⟨by decide, by decide⟩, ⟨by decide, by decide, by decide⟩,
    ⟨by decide, by decide, by decide⟩⟩

/-- C4, amended: for a locally valid form and a create-account failure whose
message contains "(auth/email-already-in-use)" and does not contain
"(auth/invalid-email)", `handleSubmit` ends with the email error "Email is
already in use", and it neither navigates nor writes to storage. -/
theorem handleSubmit_email_in_use (env : Services) (s : State) (e : JSError)
    (h : 6 ≤ s.password.length) (heq : s.password = s.confirmPassword)
    (hc : env.createUserWithEmailAndPassword s.email s.password = .error e)
    (hin : includes e.message (utf16 "(auth/email-already-in-use)") = true)
    (hno : includes e.message (utf16 "(auth/invalid-email)") = false) :
    (handleSubmit env s).state.emailError = utf16 "Email is already in use" ∧
    (∀ path, Call.navigate path ∉ (handleSubmit env s).calls) ∧
    (∀ key value, Call.localStorageSetItem key value ∉ (handleSubmit env s).calls) := by
  rw [handleSubmit_create_error env s e h heq hc, handleSubmitCatch_calls,
    handleSubmitCatch_email_in_use e _ _ hno hin]
  simp

/-- C4, amended, at the message the identity provider produces for a taken address. -/
theorem handleSubmit_email_in_use_witness :
    (handleSubmit (servicesAuthFails "Firebase: Error (auth/email-already-in-use).")
        sampleValidForm).state.emailError = utf16 "Email is already in use" ∧
    (∀ path, Call.navigate path ∉
      (handleSubmit (servicesAuthFails "Firebase: Error (auth/email-already-in-use).")
        sampleValidForm).calls) ∧
    (∀ key value, Call.localStorageSetItem key value ∉
      (handleSubmit (servicesAuthFails "Firebase: Error (auth/email-already-in-use).")
        sampleValidForm).calls) :=
  handleSubmit_email_in_use (servicesAuthFails "Firebase: Error (auth/email-already-in-use).")
    sampleValidForm { message := utf16 "Firebase: Error (auth/email-already-in-use)." }
    (by decide) (by decide) rfl (by decide) (by decide)

/-- C5 as stated fails: the handler searches for "(auth/invalid-email)" with the
parentheses, so the message "auth/invalid-email" sets no email error (it falls
through to the general error). -/
theorem handleSubmit_invalid_email_counterexample :
    (6 ≤ sampleValidForm.password.length ∧
     sampleValidForm.password = sampleValidForm.confirmPassword) ∧
    includes (utf16 "auth/invalid-email") (utf16 "auth/invalid-email") = true ∧
    (handleSubmit (servicesAuthFails "auth/invalid-email") sampleValidForm).state.emailError
      = [] ∧
    (handleSubmit (servicesAuthFails "auth/invalid-email") sampleValidForm).state.emailError
      ≠ utf16 "Invalid Email Address" ∧
    (handleSubmit (servicesAuthFails "auth/invalid-email") sampleValidForm).state.error
      = utf16 "Something went wrong, contact the developer" := by
  refine ⟨⟨by decide, by decide⟩, by decide, by decide, by decide, by decide⟩

/-- C5, amended: for a locally valid form and a create-account failure whose
message contains "(auth/invalid-email)", parentheses included, `handleSubmit`
ends with the email error "Invalid Email Address". -/
theorem handleSubmit_invalid_email (env : Services) (s : State) (e : JSError)
    (h : 6 ≤ s.password.length) (heq : s.password = s.confirmPassword)
    (hc : env.createUserWithEmailAndPassword s.email s.password = .error e)
    (hin : includes e.message (utf16 "(auth/invalid-email)") = true) :
    (handleSubmit env s).state.emailError = utf16 "Invalid Email Address" := by
  rw [handleSubmit_create_error env s e h heq hc, handleSubmitCatch_invalid_email e _ _ hin]

/-- C5, amended, at the message the identity provider produces for a malformed address. -/
theorem handleSubmit_invalid_email_witness :
    (handleSubmit (servicesAuthFails "Firebase: Error (auth/invalid-email).")
        sampleValidForm).state.emailError = utf16 "Invalid Email Address" :=
  handleSubmit_invalid_email (servicesAuthFails "Firebase: Error (auth/invalid-email).")
    sampleValidForm { message := utf16 "Firebase: Error (auth/invalid-email)." }
    (by decide) (by decide) rfl (by decide)

/-- C6: for a locally valid form and a create-account failure whose message
contains none of "auth/invalid-email", "auth/email-already-in-use" and
"auth/weak-password", `handleSubmit` ends with the general error "Something went
wrong, contact the developer" and with the email error and the password error
empty. -/
theorem handleSubmit_unclassified_failure (env : Services) (s : State) (e : JSError)
    (h : 6 ≤ s.password.length) (heq : s.password = s.confirmPassword)
    (hc : env.createUserWithEmailAndPassword s.email s.password = .error e)
    (h1 : includes e.message (utf16 "auth/invalid-email") = false)
    (h2 : includes e.message (utf16 "auth/email-already-in-use") = false)
    (h3 : includes e.message (utf16 "auth/weak-password") = false) :
    (handleSubmit env s).state.error = utf16 "Something went wrong, contact the developer" ∧
    (handleSubmit env s).state.emailError = [] ∧
    (handleSubmit env s).state.passwordError = [] := by
  rw [handleSubmit_create_error env s e h heq hc,
    handleSubmitCatch_unclassified e _ _
      (not_includes_of_part_missing _ _ _ (by decide) h1)
      (not_includes_of_part_missing _ _ _ (by decide) h2)
      (not_includes_of_part_missing _ _ _ (by decide) h3)]
  exact ⟨rfl, rfl, rfl⟩

/-- C6 at the message of a network failure, starting from a form that shows all
three error texts. -/
theorem handleSubmit_unclassified_failure_witness :
    (handleSubmit (servicesAuthFails "Firebase: Error (auth/network-request-failed).")
        (sampleDirtyForm "secret1" "secret1")).state.error =
      utf16 "Something went wrong, contact the developer" ∧
    (handleSubmit (servicesAuthFails "Firebase: Error (auth/network-request-failed).")
        (sampleDirtyForm "secret1" "secret1")).state.emailError = [] ∧
    (handleSubmit (servicesAuthFails "Firebase: Error (auth/network-request-failed).")
        (sampleDirtyForm "secret1" "secret1")).state.passwordError = [] :=
  handleSubmit_unclassified_failure
    (servicesAuthFails "Firebase: Error (auth/network-request-failed).")
    (sampleDirtyForm "secret1" "secret1")
    { message := utf16 "Firebase: Error (auth/network-request-failed)." }
    (by decide) (by decide) rfl (by decide) (by decide) (by decide)

/-! ## The federated path -/

/-- C7: whenever the `catch` block of `handleGoogleSignUp` runs, that is when
`signInWithGoogle` rejects (or a later step of the `try` block fails:
`updateProfile`, `newUser`, the storage write or the navigation), with any
error message, the general error becomes "Something went wrong with Google
Sign-Up, contact the developer" and no other state cell changes; the resulting
state is the same for every failing sign-in, whatever its message. -/
theorem handleGoogleSignUp_failure (env : Services) (s : State) (e : JSError)
    (h : env.signInWithGoogle = .error e ∨
         (∃ r, env.signInWithGoogle = .ok r ∧ env.updateProfile r.user s.name = .error e) ∨
         (∃ r, env.signInWithGoogle = .ok r ∧ env.updateProfile r.user s.name = .ok () ∧
               env.newUser r = .threw e) ∨
         (∃ r later, env.signInWithGoogle = .ok r ∧ env.updateProfile r.user s.name = .ok () ∧
               env.newUser r = .returned later ∧
               env.localStorageSetItem (utf16 "loggedIn") true = .error e) ∨
         (∃ r later, env.signInWithGoogle = .ok r ∧ env.updateProfile r.user s.name = .ok () ∧
               env.newUser r = .returned later ∧
               env.localStorageSetItem (utf16 "loggedIn") true = .ok () ∧
               env.navigate (utf16 "/dashboard") = .error e)) :
    (handleGoogleSignUp env s).state.error =
      utf16 "Something went wrong with Google Sign-Up, contact the developer" ∧
    (handleGoogleSignUp env s).state =
      { s with error :=
          utf16 "Something went wrong with Google Sign-Up, contact the developer" } ∧
    ∀ (env2 : Services) (e2 : JSError), env2.signInWithGoogle = .error e2 →
      (handleGoogleSignUp env2 s).state = (handleGoogleSignUp env s).state := by
  have hs := handleGoogleSignUp_failed env s e h
  refine ⟨by rw [hs], hs, ?_⟩
  intro env2 e2 h2
  rw [hs, handleGoogleSignUp_failed env2 s e2 (Or.inl h2)]

/-- C7 at a sign-in failure whose message carries a code that `handleSubmit`
would classify. -/
theorem handleGoogleSignUp_failure_witness :
    (servicesAuthFails "Firebase: Error (auth/invalid-email).").signInWithGoogle =
      .error { message := utf16 "Firebase: Error (auth/invalid-email)." } ∧
    (handleGoogleSignUp (servicesAuthFails "Firebase: Error (auth/invalid-email).")
        sampleValidForm).state.error =
      utf16 "Something went wrong with Google Sign-Up, contact the developer" ∧
    (handleGoogleSignUp (servicesAuthFails "Firebase: Error (auth/invalid-email).")
        sampleValidForm).state.emailError = [] :=
  ⟨rfl,
   (handleGoogleSignUp_failure (servicesAuthFails "Firebase: Error (auth/invalid-email).")
      sampleValidForm { message := utf16 "Firebase: Error (auth/invalid-email)." }
      (Or.inl rfl)).1,
   by decide⟩

/-! ## Error state across submissions -/

/-- C8: `handleSubmit` resets the three error texts to empty before validating:
whatever they held before, after the run they are all empty, or exactly one of
them holds a message written by this run and the other two are empty.  So its
outcome is the outcome from the state with the three texts cleared; two states
with the same four input fields give, under the same services, the same three
error texts (indeed the same outcome), whatever error texts they showed before;
and submitting again from the resulting state, under the same services, leaves
the state unchanged. -/
theorem handleSubmit_errors_determined (env : Services) (s t : State)
    (hn : s.name = t.name) (he : s.email = t.email) (hp : s.password = t.password)
    (hc : s.confirmPassword = t.confirmPassword) :
    (((handleSubmit env s).state.error = [] ∧
        (handleSubmit env s).state.emailError = [] ∧
        (handleSubmit env s).state.passwordError = []) ∨
      ((handleSubmit env s).state.error =
          utf16 "Something went wrong, contact the developer" ∧
        (handleSubmit env s).state.emailError = [] ∧
        (handleSubmit env s).state.passwordError = []) ∨
      ((handleSubmit env s).state.error = [] ∧
        ((handleSubmit env s).state.emailError = utf16 "Invalid Email Address" ∨
         (handleSubmit env s).state.emailError = utf16 "Email is already in use") ∧
        (handleSubmit env s).state.passwordError = []) ∨
      ((handleSubmit env s).state.error = [] ∧
        (handleSubmit env s).state.emailError = [] ∧
        ((handleSubmit env s).state.passwordError =
            utf16 "Password must be at least 6 characters long" ∨
         (handleSubmit env s).state.passwordError = utf16 "Passwords do not match"))) ∧
    ((handleSubmit env s).state.error = (handleSubmit env t).state.error ∧
     (handleSubmit env s).state.emailError = (handleSubmit env t).state.emailError ∧
     (handleSubmit env s).state.passwordError = (handleSubmit env t).state.passwordError) ∧
    handleSubmit env s = handleSubmit env t ∧
    handleSubmit env s =
      handleSubmit env { s with error := [], emailError := [], passwordError := [] } ∧
    (handleSubmit env (handleSubmit env s).state).state = (handleSubmit env s).state := by
  have hst := handleSubmit_congr env s t hn he hp hc
  obtain ⟨f1, f2, f3, f4⟩ := handleSubmit_fields env s
  refine ⟨handleSubmit_error_texts env s, by rw [hst]; exact ⟨rfl, rfl, rfl⟩, hst, ?_, ?_⟩
  · exact handleSubmit_congr env s _ rfl rfl rfl rfl
  · rw [handleSubmit_congr env (handleSubmit env s).state s f1 f2 f3 f4]

/-- C8 at a clean and a dirty form with the same fields, under a provider that
rejects the address as taken. -/
theorem handleSubmit_errors_determined_witness :
    (handleSubmit (servicesAuthFails "Firebase: Error (auth/email-already-in-use).")
        sampleValidForm).state.emailError =
      (handleSubmit (servicesAuthFails "Firebase: Error (auth/email-already-in-use).")
        (sampleDirtyForm "secret1" "secret1")).state.emailError ∧
    (handleSubmit (servicesAuthFails "Firebase: Error (auth/email-already-in-use).")
        sampleValidForm).state.error = [] :=
  ⟨(handleSubmit_errors_determined
      (servicesAuthFails "Firebase: Error (auth/email-already-in-use).")
      sampleValidForm (sampleDirtyForm "secret1" "secret1")
      (by decide) (by decide) (by decide) (by decide)).2.1.2.1,
   by decide⟩

/-! ## Failures after the account was created -/

/-- C9 as stated fails: with a locally valid form and a create-account call that
succeeds, a rejected `updateProfile` is caught by the `catch` block of
`handleSubmit`, which logs it and sets the general error. -/
theorem handleSubmit_profile_failure_counterexample :
    (6 ≤ sampleValidForm.password.length ∧
     sampleValidForm.password = sampleValidForm.confirmPassword) ∧
    (servicesProfileFails "Profile update failed").createUserWithEmailAndPassword
        sampleValidForm.email sampleValidForm.password = .ok sampleCred ∧
    (servicesProfileFails "Profile update failed").updateProfile
        sampleCred.user sampleValidForm.name =
      .error { message := utf16 "Profile update failed" } ∧
    (handleSubmit (servicesProfileFails "Profile update failed") sampleValidForm).state.error =
      utf16 "Something went wrong, contact the developer" ∧
    (handleSubmit (servicesProfileFails "Profile update failed") sampleValidForm).state.error
      ≠ [] ∧
    Call.consoleError (utf16 "Error signing up:") (utf16 "Profile update failed") ∈
      (handleSubmit (servicesProfileFails "Profile update failed") sampleValidForm).calls := by
  refine ⟨⟨by decide, by decide⟩, rfl, rfl, by decide, by decide, by decide⟩

/-- C9, amended: for a locally valid form whose create-account call succeeded,
(1) a rejected `updateProfile` is caught by the `catch` block of `handleSubmit`:
the handler logs the message and stops (no `newUser`, no storage write, no
navigation), it ends in the state that a create-account failure with the same
error gives, and a message with none of the three parenthesised codes sets the
general error "Something went wrong, contact the developer"; (2) when
`updateProfile` succeeds and `newUser` returns, a later rejection of the promise
it returned is not observed: provided the storage write and the navigation
themselves return, the handler goes on to make both, as its last two calls, and
the three error texts stay empty. -/
theorem handleSubmit_failure_after_create (env : Services) (s : State)
    (cred : UserCredential) (h : 6 ≤ s.password.length)
    (heq : s.password = s.confirmPassword)
    (hc : env.createUserWithEmailAndPassword s.email s.password = .ok cred) :
    (∀ e : JSError, env.updateProfile cred.user s.name = .error e →
      (handleSubmit env s).calls =
        [Call.preventDefault,
         Call.createUserWithEmailAndPassword s.email s.password,
         Call.updateProfile cred.user s.name,
         Call.consoleError (utf16 "Error signing up:") e.message] ∧
      (handleSubmit env s).state =
        (handleSubmit { env with createUserWithEmailAndPassword := fun _ _ => .error e }
          s).state ∧
      (includes e.message (utf16 "(auth/invalid-email)") = false →
       includes e.message (utf16 "(auth/email-already-in-use)") = false →
       includes e.message (utf16 "(auth/weak-password)") = false →
       (handleSubmit env s).state.error =
         utf16 "Something went wrong, contact the developer")) ∧
    (∀ e : JSError, env.updateProfile cred.user s.name = .ok () →
      env.newUser { user := { uid := cred.user.uid, password := some s.password } }
        = .returned (some e) →
      env.localStorageSetItem (utf16 "loggedIn") true = .ok () →
      env.navigate (utf16 "/dashboard") = .ok () →
      (handleSubmit env s).state.error = [] ∧
      (handleSubmit env s).state.emailError = [] ∧
      (handleSubmit env s).state.passwordError = [] ∧
      (handleSubmit env s).calls =
        [Call.preventDefault,
         Call.createUserWithEmailAndPassword s.email s.password,
         Call.updateProfile cred.user s.name,
         Call.newUser { user := { uid := cred.user.uid, password := some s.password } },
         Call.localStorageSetItem (utf16 "loggedIn") true,
         Call.navigate (utf16 "/dashboard")]) := by
  constructor
  · intro e hu
    rw [handleSubmit_update_error env s cred e h heq hc hu]
    refine ⟨by rw [handleSubmitCatch_calls]; rfl, ?_, ?_⟩
    · rw [handleSubmit_create_error _ s e h heq rfl]
      unfold handleSubmitCatch
      simp only
      split_ifs <;> rfl
    · intro h1 h2 h3
      rw [handleSubmitCatch_unclassified e _ _ h1 h2 h3]
  · intro e hu hn hs hv
    rw [handleSubmit_success env s cred (some e) h heq hc hu hn hs hv]
    exact ⟨rfl, rfl, rfl, rfl⟩

/-- C9, amended, at a rejected profile update and at a persistence request whose
promise rejects later. -/
theorem handleSubmit_failure_after_create_witness :
    (handleSubmit (servicesProfileFails "Profile update failed") sampleValidForm).calls =
      [Call.preventDefault,
       Call.createUserWithEmailAndPassword sampleValidForm.email sampleValidForm.password,
       Call.updateProfile sampleCred.user sampleValidForm.name,
       Call.consoleError (utf16 "Error signing up:") (utf16 "Profile update failed")] ∧
    ((handleSubmit (servicesPersistRejects "Request failed") sampleValidForm).state.error = [] ∧
     (handleSubmit (servicesPersistRejects "Request failed") sampleValidForm).state.emailError
       = [] ∧
     (handleSubmit (servicesPersistRejects "Request failed") sampleValidForm).state.passwordError
       = [] ∧
     (handleSubmit (servicesPersistRejects "Request failed") sampleValidForm).calls =
       [Call.preventDefault,
        Call.createUserWithEmailAndPassword sampleValidForm.email sampleValidForm.password,
        Call.updateProfile sampleCred.user sampleValidForm.name,
        Call.newUser { user := { uid := sampleCred.user.uid,
                                 password := some sampleValidForm.password } },
        Call.localStorageSetItem (utf16 "loggedIn") true,
        Call.navigate (utf16 "/dashboard")]) :=
  ⟨((handleSubmit_failure_after_create (servicesProfileFails "Profile update failed")
        sampleValidForm sampleCred (by decide) (by decide) rfl).1
      { message := utf16 "Profile update failed" } rfl).1,
   (handleSubmit_failure_after_create (servicesPersistRejects "Request failed")
        sampleValidForm sampleCred (by decide) (by decide) rfl).2
      { message := utf16 "Request failed" } rfl rfl rfl rfl⟩

/-! ## The submitted flag -/

/-- C10 as stated fails for the federated submit trigger: `handleGoogleSignUp`
never calls `setIsSubmitted`, so after a federated attempt on a fresh form,
failed or successful, `isSubmitted` is still false (while the general error of
the failed attempt is shown). -/
theorem isSubmitted_counterexample :
    (run init [Event.googleSignUp (servicesAuthFails "Popup closed")]).isSubmitted = false ∧
    (run init [Event.googleSignUp (servicesAuthFails "Popup closed")]).error =
      utf16 "Something went wrong with Google Sign-Up, contact the developer" ∧
    (run init [Event.googleSignUp servicesOk]).isSubmitted = false ∧
    (run init [Event.googleSignUp (servicesAuthFails "Popup closed"),
               Event.setName (utf16 "Ann")]).isSubmitted = false := by
  refine ⟨by decide, by decide, by decide, by decide⟩

/-- C10, amended: `isSubmitted` starts false; every step of the session (an edit
of a field, `handleSubmit`, `handleGoogleSignUp`) leaves it at its old value
or-ed with "the step is a run of `handleSubmit`", so no step sets it back to
false and `handleGoogleSignUp` leaves it as it was; hence after a run it is the
old value or-ed with "some step was a run of `handleSubmit`", and in every state
reached after a `handleSubmit` it is true. -/
theorem isSubmitted_invariant :
    init.isSubmitted = false ∧
    (∀ (s : State) (e : Event), (step s e).isSubmitted = (s.isSubmitted || e.isSubmit)) ∧
    (∀ (s : State) (env : Services),
      (step s (Event.googleSignUp env)).isSubmitted = s.isSubmitted) ∧
    (∀ (s : State) (evs : List Event),
      (run s evs).isSubmitted = (s.isSubmitted || evs.any Event.isSubmit)) ∧
    (∀ (s : State) (env : Services) (evs : List Event),
      (run (step s (Event.submit env)) evs).isSubmitted = true) := by
  refine ⟨rfl, step_isSubmitted, ?_, run_isSubmitted, ?_⟩
  · intro s env
    rw [step_isSubmitted]
    simp [Event.isSubmit]
  intro s env evs
  rw [run_isSubmitted, step_isSubmitted]
  simp [Event.isSubmit]

end Signup
